import Mathlib

/-!
Verification of the mask refinement and compositing engine of `src/app.py`
(background-removal app: AI mask + manual keep/remove brush refinement).

Shallow embedding conventions:
* An image or mask is a `Grid α`: explicit width/height plus a pixel function
  (row-major access is written `pix x y` with `x` the column and `y` the row).
* `uint8` channel values are `Nat`s in `[0,255]`; the numpy expression
  `rgb[:,:,1] > rgb[:,:,0] + 50` adds in `uint8`, so the embedded classifier
  computes `(r + 50) % 256` exactly as the wrapping hardware addition does.
* Python's `int(h * (max_width / w))` (lines 55 and 141 of app.py) is embedded
  as the exact truncated division `h * maxW / w` on `Nat`; binary floating
  point coincides with the exact value at the magnitudes exercised here (the
  concrete instances used below were checked against CPython float semantics).
* PIL's `Image.resize(..., Image.NEAREST)` is embedded by sampling the source
  at the pixel centre `⌊(2x+1)·src/(2·dst)⌋`; `Image.LANCZOS` resampling of a
  colour photograph is an external smoothing filter and is passed in as an
  explicit function parameter where the code calls it.
* `Image.paste(orig, mask=mask_L)` with a two-valued {0,255} mask selects the
  source pixel where the mask is 255 and keeps the canvas pixel where it is 0;
  all mask arguments reasoned about below are produced from boolean grids, so
  the paste is embedded as a pointwise boolean selection.
-/

namespace RemoveBg

/-- A 2-D pixel grid with explicit dimensions: the common shape of PIL images
and numpy arrays in app.py. -/
structure Grid (α : Type) where
  width : Nat
  height : Nat
  pix : Nat → Nat → α

/-- An RGB triple of `uint8` channel values `(r, g, b)`. -/
abbrev RGB := Nat × Nat × Nat

/-! ## ResolutionMapper -/

/-- Lines 52–57 and 138–143 of app.py: the bounded size. If the original
width exceeds the bound, the width becomes the bound and the height is the
truncation `int(h * (max_width / w))`, embedded as exact floor division;
otherwise the size is unchanged. -/
def boundedSize (w h maxW : Nat) : Nat × Nat :=
  if maxW < w then (maxW, h * maxW / w) else (w, h)

/-- The spec's wording of `boundedSize`, for comparison: it prescribes
`round(originalHeight × maxWidth / originalWidth)` (round-to-nearest) for the
downscaled height, not truncation. -/
def specBoundedSize (w h maxW : Nat) : Int × Int :=
  if w ≤ maxW then ((w : Int), (h : Int))
  else ((maxW : Int), round ((h * maxW : ℚ) / (w : ℚ)))

/-- Nearest-neighbour source index for one axis: PIL samples the source at the
centre of each destination pixel, `⌊(x + 1/2) · src / dst⌋`. -/
def nearestIdx (src dst x : Nat) : Nat := (2 * x + 1) * src / (2 * dst)

/-- `Image.resize((w, h), Image.NEAREST)`: every destination pixel copies one
source pixel, no blending. -/
def resizeNearest (g : Grid α) (w h : Nat) : Grid α :=
  ⟨w, h, fun x y => g.pix (nearestIdx g.width w x) (nearestIdx g.height h y)⟩

/-! ## StrokeClassifier (lines 193–201) -/

/-- Line 197: `diff = np.any(rgb != bg_np_for_diff, axis=2)` — the snapshot
pixel differs from the canvas background reference in some channel. -/
def pixDiff (snap bgRef : Grid RGB) (x y : Nat) : Bool :=
  decide (snap.pix x y ≠ bgRef.pix x y)

/-- Line 200: `is_green = diff & (g > r + 50) & (g > b + 50) & (g > 150)`.
The `+ 50` is a `uint8` addition and wraps modulo 256. -/
def isGreenAt (snap bgRef : Grid RGB) (x y : Nat) : Bool :=
  let r := (snap.pix x y).1
  let g := (snap.pix x y).2.1
  let b := (snap.pix x y).2.2
  pixDiff snap bgRef x y && decide ((r + 50) % 256 < g)
    && decide ((b + 50) % 256 < g) && decide (150 < g)

/-- Line 201: `is_red = diff & (r > g + 50) & (r > b + 50) & (r > 150)`,
with the same wrapping `uint8` additions. -/
def isRedAt (snap bgRef : Grid RGB) (x y : Nat) : Bool :=
  let r := (snap.pix x y).1
  let g := (snap.pix x y).2.1
  let b := (snap.pix x y).2.2
  pixDiff snap bgRef x y && decide ((g + 50) % 256 < r)
    && decide ((b + 50) % 256 < r) && decide (150 < r)

/-! ## StrokeAccumulator (lines 151–172 and 203–204) -/

/-- Lines 151–152: `np.zeros((h, w), dtype=bool)`. -/
def zeros_hw (h w : Nat) : Grid Bool := ⟨w, h, fun _ _ => false⟩

/-- The per-image refinement state: the `keep` and `remove` boolean masks held
in `st.session_state[state_key]` (lines 156–160). -/
structure RefineState where
  keep : Grid Bool
  remove : Grid Bool

/-- Lines 157–160: fresh state, both masks all-false at canvas resolution. -/
def initState (h w : Nat) : RefineState := ⟨zeros_hw h w, zeros_hw h w⟩

/-- Lines 203–204: `keep |= is_green; remove |= is_red` — in-place logical OR
of the classified deltas into the accumulated masks. -/
def mergeState (s : RefineState) (kd rd : Grid Bool) : RefineState :=
  ⟨⟨s.keep.width, s.keep.height, fun x y => s.keep.pix x y || kd.pix x y⟩,
   ⟨s.remove.width, s.remove.height, fun x y => s.remove.pix x y || rd.pix x y⟩⟩

/-- Lines 170–171: the clear button writes `False` into every cell of both
masks in place, leaving their shapes unchanged. -/
def resetState (s : RefineState) : RefineState :=
  ⟨⟨s.keep.width, s.keep.height, fun _ _ => false⟩,
   ⟨s.remove.width, s.remove.height, fun _ _ => false⟩⟩

/-- A whole sequence of merge calls, applied left to right. -/
def mergeAll (s : RefineState) (ds : List (Grid Bool × Grid Bool)) : RefineState :=
  ds.foldl (fun acc d => mergeState acc d.1 d.2) s

/-! ## Per-image session keying (lines 154–160, 169–172) -/

/-- Line 155: `state_key = f"refine_{file.name}"`. -/
def stateKey (name : String) : String := "refine_" ++ name

/-- `st.session_state` restricted to the refinement entries: a partial map
from state keys to per-image states. -/
abbrev Session := String → Option RefineState

/-- Dictionary write: `st.session_state[key] = v`. -/
def sessionSet (sess : Session) (key : String) (v : RefineState) : Session :=
  fun k => if k = key then some v else sess k

/-- Lines 156–160 followed by 203–204 for the image named `name`: initialise
the state at canvas resolution if absent, then OR the deltas in. -/
def sessionMerge (sess : Session) (name : String) (h w : Nat)
    (kd rd : Grid Bool) : Session :=
  let s0 := (sess (stateKey name)).getD (initState h w)
  sessionSet sess (stateKey name) (mergeState s0 kd rd)

/-- Lines 169–172 for the image named `name`: the clear button zeroes that
image's two masks (a no-op if the state was never created). -/
def sessionReset (sess : Session) (name : String) : Session :=
  match sess (stateKey name) with
  | some s => sessionSet sess (stateKey name) (resetState s)
  | none => sess

/-! ## MaskCompositor (lines 211–230) -/

/-- Thresholding an L-mode (0–255) grid at 128: `arr >= 128`
(lines 223, 226, 227). -/
def thresholdGrid (g : Grid Nat) : Grid Bool :=
  ⟨g.width, g.height, fun x y => decide (128 ≤ g.pix x y)⟩

/-- `(mask_small * 255).astype("uint8")` (line 212): a boolean grid viewed as
an L-mode image with values 0 and 255. -/
def boolToL (m : Grid Bool) : Grid Nat :=
  ⟨m.width, m.height, fun x y => if m.pix x y then 255 else 0⟩

/-- Lines 211–216, `to_orig`: the canvas-resolution boolean mask as an L
image, resized (nearest-neighbour) to the original size only when the sizes
differ. -/
def to_orig (m : Grid Bool) (ow oh : Nat) : Grid Nat :=
  let mImg := boolToL m
  if (m.width, m.height) = (ow, oh) then mImg else resizeNearest mImg ow oh

/-- Lines 218–228: the final mask. `base` is the AI alpha mask resized
(nearest) to the original size and thresholded at 128; the accumulated keep
and remove masks are brought to original size by `to_orig` and thresholded;
the result is `(base | keep) & ~remove` per pixel. -/
def composite (mask_L : Grid Nat) (keep rem : Grid Bool) (ow oh : Nat) : Grid Bool :=
  let fg0 := thresholdGrid (resizeNearest mask_L ow oh)
  let keepB := thresholdGrid (to_orig keep ow oh)
  let removeB := thresholdGrid (to_orig rem ow oh)
  ⟨ow, oh, fun x y => (fg0.pix x y || keepB.pix x y) && !(removeB.pix x y)⟩

/-! ## ImageCompositor (lines 47–65, `compose_on_background`) -/

/-- Lines 59–60: an opaque canvas filled with the background colour at the
image's size, with the image pasted wherever the (two-valued) mask is set. -/
def pasteOnBg (img : Grid RGB) (mask : Grid Bool) (bg : RGB) : Grid RGB :=
  ⟨img.width, img.height, fun x y => if mask.pix x y then img.pix x y else bg⟩

/-- Lines 52–60 of `compose_on_background`, on a two-valued mask. When
`max_width > 0` and the image is wider, both the image (with the external
LANCZOS smoothing filter, passed in as `smooth`) and the mask (nearest
neighbour) are resized to the bounded size first; otherwise the inputs are
used unchanged. The PNG encoding of the result is lossless, so the embedding
returns the pixel grid itself. -/
def compose_on_background (orig : Grid RGB) (mask : Grid Bool) (bg : RGB)
    (maxW : Nat) (smooth : Grid RGB → Nat → Nat → Grid RGB) : Grid RGB :=
  let p :=
    if 0 < maxW ∧ maxW < orig.width then
      let sz := boundedSize orig.width orig.height maxW
      (smooth orig sz.1 sz.2, resizeNearest mask sz.1 sz.2)
    else (orig, mask)
  pasteOnBg p.1 p.2 bg

/-! ## Batch upload loop (lines 99–108) -/

/-- One iteration's visible outcome: either the `st.error` report for a file
whose bytes failed to decode, or the processed image. -/
inductive BatchOutcome where
  | error (message : String)
  | processed (name : String) (img : Grid RGB)

/-- An uploaded file: its name together with the result of attempting to
decode its bytes (`Image.open(...).convert("RGB")`); `none` models the decode
raising. Decoding itself is done by the external PIL library. -/
abbrev UploadFile := String × Option (Grid RGB)

/-- Lines 100–108: the body of the upload loop. A failed decode produces the
`st.error` message naming the file and `continue`s; a successful decode
proceeds with the image. -/
def processFile : UploadFile → BatchOutcome
  | (name, none) => .error ("Archivo inválido o no soportado (" ++ name ++ ")")
  | (name, some img) => .processed name img

/-- The whole upload loop: every file contributes exactly one outcome,
in order. -/
def processBatch (files : List UploadFile) : List BatchOutcome :=
  files.map processFile

/-! ## Helper lemmas -/

/-- Nearest-neighbour resampling to the source's own size reads back the same
pixel (for positive dimensions). -/
theorem nearestIdx_self (w x : Nat) (hw : 0 < w) : nearestIdx w w x = x := by
  unfold nearestIdx
  have h1 : (2 * x + 1) * w = 2 * w * x + w := by ring
  rw [h1, Nat.mul_add_div (by omega), Nat.div_eq_of_lt (by omega)]
  omega

/-- Unfolding the final-mask pixel formula of `composite`. -/
theorem composite_pix (mask_L : Grid Nat) (keep rem : Grid Bool) (ow oh x y : Nat) :
    (composite mask_L keep rem ow oh).pix x y
      = (((thresholdGrid (resizeNearest mask_L ow oh)).pix x y
           || (thresholdGrid (to_orig keep ow oh)).pix x y)
         && !((thresholdGrid (to_orig rem ow oh)).pix x y)) := rfl

/-- Thresholding `to_orig` of a boolean mask at 128 recovers exactly the
nearest-neighbour resampling of the boolean mask itself, whether or not the
sizes already agreed. -/
theorem thresholdGrid_to_orig (m : Grid Bool) (ow oh x y : Nat)
    (hw : 0 < ow) (hh : 0 < oh) :
    (thresholdGrid (to_orig m ow oh)).pix x y = (resizeNearest m ow oh).pix x y := by
  unfold to_orig thresholdGrid boolToL resizeNearest
  by_cases hsz : (m.width, m.height) = (ow, oh)
  · simp only [hsz, if_pos rfl]
    have h1 : m.width = ow := (Prod.mk.injEq _ _ _ _).mp hsz |>.1
    have h2 : m.height = oh := (Prod.mk.injEq _ _ _ _).mp hsz |>.2
    rw [h1, h2, nearestIdx_self ow x hw, nearestIdx_self oh y hh]
    by_cases hp : m.pix x y = true
    · simp [hp]
    · simp [Bool.eq_false_iff.mpr hp]
  · simp only [if_neg hsz]
    by_cases hp : m.pix (nearestIdx m.width ow x) (nearestIdx m.height oh y) = true
    · simp [hp]
    · simp [Bool.eq_false_iff.mpr hp]

/-! ## Claims -/

/-- Claim C1: For every pixel, the final mask computed by the mask compositor
equals `(base OR keep) AND NOT remove`, with `base` the alpha mask thresholded
at 128 (after its nearest-neighbour resampling to original size) and the
keep/remove masks nearest-neighbour resampled to original size; consequently,
wherever both the resampled keep and remove are true the final pixel is false
regardless of the base value — remove takes precedence. -/
theorem C1_final_mask_formula (mask_L : Grid Nat) (keep rem : Grid Bool)
    (ow oh x y : Nat) (hw : 0 < ow) (hh : 0 < oh) :
    ((composite mask_L keep rem ow oh).pix x y
      = (((thresholdGrid (resizeNearest mask_L ow oh)).pix x y
           || (resizeNearest keep ow oh).pix x y)
         && !((resizeNearest rem ow oh).pix x y)))
    ∧ ((resizeNearest keep ow oh).pix x y = true →
       (resizeNearest rem ow oh).pix x y = true →
       (composite mask_L keep rem ow oh).pix x y = false) := by
  have hform : (composite mask_L keep rem ow oh).pix x y
      = (((thresholdGrid (resizeNearest mask_L ow oh)).pix x y
           || (resizeNearest keep ow oh).pix x y)
         && !((resizeNearest rem ow oh).pix x y)) := by
    rw [composite_pix, thresholdGrid_to_orig keep ow oh x y hw hh,
        thresholdGrid_to_orig rem ow oh x y hw hh]
  refine ⟨hform, fun hk hr => ?_⟩
  rw [hform, hr]
  simp

/-- Claim C1 witness: A concrete 1×1 instance: alpha 255 (base true), keep true,
remove true — the final pixel is false. -/
theorem C1_final_mask_formula_witness :
    (0 : Nat) < 1 ∧
    (composite ⟨1, 1, fun _ _ => 255⟩ ⟨1, 1, fun _ _ => true⟩
        ⟨1, 1, fun _ _ => true⟩ 1 1).pix 0 0 = false :=
  ⟨by decide,
    (C1_final_mask_formula ⟨1, 1, fun _ _ => 255⟩ ⟨1, 1, fun _ _ => true⟩
        ⟨1, 1, fun _ _ => true⟩ 1 1 0 0 (by decide) (by decide)).2
      (by decide) (by decide)⟩

/-- Claim C2: If the keep and remove masks are all-false, the final mask equals
the alpha mask thresholded at 128, nearest-neighbour resampled to the
original size (threshold and nearest resampling commute, pixel for pixel). -/
theorem C2_base_only (mask_L : Grid Nat) (keep rem : Grid Bool)
    (ow oh x y : Nat)
    (hk : ∀ i j, keep.pix i j = false) (hr : ∀ i j, rem.pix i j = false) :
    (composite mask_L keep rem ow oh).pix x y
      = (resizeNearest (thresholdGrid mask_L) ow oh).pix x y := by
  have hko : (thresholdGrid (to_orig keep ow oh)).pix x y = false := by
    unfold thresholdGrid to_orig boolToL resizeNearest
    by_cases hsz : (keep.width, keep.height) = (ow, oh) <;> simp [hsz, hk]
  have hro : (thresholdGrid (to_orig rem ow oh)).pix x y = false := by
    unfold thresholdGrid to_orig boolToL resizeNearest
    by_cases hsz : (rem.width, rem.height) = (ow, oh) <;> simp [hsz, hr]
  rw [composite_pix, hko, hro]
  simp [thresholdGrid, resizeNearest]

/-- Claim C2 witness: A concrete 2×1 all-false keep/remove instance: the final
mask reproduces the thresholded alpha values (255 → true at pixel (0,0)). -/
theorem C2_base_only_witness :
    (∀ i j, (zeros_hw 1 2).pix i j = false) ∧
    (composite ⟨2, 1, fun x _ => if x = 0 then 255 else 0⟩ (zeros_hw 1 2)
        (zeros_hw 1 2) 2 1).pix 0 0
      = (resizeNearest (thresholdGrid ⟨2, 1, fun x _ => if x = 0 then 255 else 0⟩)
          2 1).pix 0 0 :=
  ⟨fun _ _ => rfl,
    C2_base_only ⟨2, 1, fun x _ => if x = 0 then 255 else 0⟩ (zeros_hw 1 2)
      (zeros_hw 1 2) 2 1 0 0 (fun _ _ => rfl) (fun _ _ => rfl)⟩

/-- Claim C3 counterexample: At original size 2×3 with bound 1, the code
truncates `int(3 * (1/2)) = 1` while the spec's formula rounds
`round(3 × 1 / 2) = 2`: the claim's rounding formula does not describe the
code. -/
theorem C3_counterexample :
    boundedSize 2 3 1 = (1, 1) ∧ specBoundedSize 2 3 1 = (1, 2) := by
  constructor
  · decide
  · unfold specBoundedSize
    norm_num [round_eq]

/-- Claim C3 amended: The bounded size leaves sizes with width within the
bound unchanged, and otherwise truncates (floor), not rounds: it returns
`(maxWidth, ⌊h × maxWidth / w⌋)`; the concrete scenario 2000×1000 with bound
1024 still yields exactly (1024, 512). -/
theorem C3_bounded_size (w h maxW : Nat) :
    (w ≤ maxW → boundedSize w h maxW = (w, h))
    ∧ (maxW < w → boundedSize w h maxW = (maxW, h * maxW / w))
    ∧ boundedSize 2000 1000 1024 = (1024, 512) := by
  refine ⟨fun hle => ?_, fun hlt => ?_, by decide⟩
  · unfold boundedSize
    rw [if_neg (by omega)]
  · unfold boundedSize
    rw [if_pos hlt]

/-- Claim C3 witness: Both branches at concrete sizes: 3×5 within bound 7 is
unchanged; 2000×1000 bounded at 1024 gives (1024, 512). -/
theorem C3_bounded_size_witness :
    (3 ≤ 7 ∧ boundedSize 3 5 7 = (3, 5))
    ∧ (1024 < 2000 ∧ boundedSize 2000 1000 1024 = (1024, 512)) :=
  ⟨⟨by decide, (C3_bounded_size 3 5 7).1 (by decide)⟩,
   ⟨by decide, (C3_bounded_size 2000 1000 1024).2.1 (by decide)⟩⟩

/-- Claim C4 counterexample: A 1×1 snapshot whose pixel is pure green ink
(0,255,0) drawn over a background reference that is also pure green there:
the classifier does not mark it keep (the difference test fails), so the
claim "every pure-green-ink pixel is marked keep" is false as stated. -/
theorem C4_counterexample :
    (⟨1, 1, fun _ _ => ((0 : Nat), (255 : Nat), (0 : Nat))⟩ : Grid RGB).pix 0 0
        = (0, 255, 0)
    ∧ isGreenAt ⟨1, 1, fun _ _ => (0, 255, 0)⟩ ⟨1, 1, fun _ _ => (0, 255, 0)⟩ 0 0
        = false := by
  decide

/-- Claim C4 amended: Every pure-green-ink pixel (0,255,0) *that differs from
the background reference at that pixel* classifies as keep, every pure-red-ink
pixel (255,0,0) that differs likewise classifies as remove, and a pixel whose
RGB value is unchanged from the background reference never classifies as
either. -/
theorem C4_classifier_pure_ink (snap bgRef : Grid RGB) (x y : Nat) :
    (snap.pix x y = (0, 255, 0) → snap.pix x y ≠ bgRef.pix x y →
      isGreenAt snap bgRef x y = true)
    ∧ (snap.pix x y = (255, 0, 0) → snap.pix x y ≠ bgRef.pix x y →
      isRedAt snap bgRef x y = true)
    ∧ (snap.pix x y = bgRef.pix x y →
      isGreenAt snap bgRef x y = false ∧ isRedAt snap bgRef x y = false) := by
  refine ⟨fun hp hne => ?_, fun hp hne => ?_, fun heq => ?_⟩
  · have hd : pixDiff snap bgRef x y = true := decide_eq_true hne
    simp [isGreenAt, hd, hp]
  · have hd : pixDiff snap bgRef x y = true := decide_eq_true hne
    simp [isRedAt, hd, hp]
  · have hd : pixDiff snap bgRef x y = false := by
      simp [pixDiff, heq]
    simp [isGreenAt, isRedAt, hd]

/-- Claim C4 witness: Concrete 1×1 snapshots: green ink over black classifies
keep, red ink over black classifies remove, black over black classifies as
neither. -/
theorem C4_classifier_pure_ink_witness :
    isGreenAt ⟨1, 1, fun _ _ => (0, 255, 0)⟩ ⟨1, 1, fun _ _ => (0, 0, 0)⟩ 0 0 = true
    ∧ isRedAt ⟨1, 1, fun _ _ => (255, 0, 0)⟩ ⟨1, 1, fun _ _ => (0, 0, 0)⟩ 0 0 = true
    ∧ (isGreenAt ⟨1, 1, fun _ _ => (7, 7, 7)⟩ ⟨1, 1, fun _ _ => (7, 7, 7)⟩ 0 0 = false
       ∧ isRedAt ⟨1, 1, fun _ _ => (7, 7, 7)⟩ ⟨1, 1, fun _ _ => (7, 7, 7)⟩ 0 0 = false) :=
  ⟨(C4_classifier_pure_ink ⟨1, 1, fun _ _ => (0, 255, 0)⟩
      ⟨1, 1, fun _ _ => (0, 0, 0)⟩ 0 0).1 rfl (by decide),
   (C4_classifier_pure_ink ⟨1, 1, fun _ _ => (255, 0, 0)⟩
      ⟨1, 1, fun _ _ => (0, 0, 0)⟩ 0 0).2.1 rfl (by decide),
   (C4_classifier_pure_ink ⟨1, 1, fun _ _ => (7, 7, 7)⟩
      ⟨1, 1, fun _ _ => (7, 7, 7)⟩ 0 0).2.2 rfl⟩

/-- Merging a sequence of deltas never clears an already-set keep pixel. -/
theorem mergeAll_keep_mono (ds : List (Grid Bool × Grid Bool)) (s : RefineState)
    (x y : Nat) (h : s.keep.pix x y = true) :
    (mergeAll s ds).keep.pix x y = true := by
  induction ds generalizing s with
  | nil => exact h
  | cons d ds ih =>
      exact ih (mergeState s d.1 d.2) (by simp [mergeState, h])

/-- Merging a sequence of deltas never clears an already-set remove pixel. -/
theorem mergeAll_remove_mono (ds : List (Grid Bool × Grid Bool)) (s : RefineState)
    (x y : Nat) (h : s.remove.pix x y = true) :
    (mergeAll s ds).remove.pix x y = true := by
  induction ds generalizing s with
  | nil => exact h
  | cons d ds ih =>
      exact ih (mergeState s d.1 d.2) (by simp [mergeState, h])

/-- Claim C5: Merges only OR deltas in: once `keep[p]` (resp. `remove[p]`) is
true it stays true after any further sequence of merge calls; the explicit
reset (clear button) sets both masks back to all-false at exactly the same
resolution as before. -/
theorem C5_monotone_until_reset (s : RefineState)
    (ds : List (Grid Bool × Grid Bool)) (x y : Nat) :
    (s.keep.pix x y = true → (mergeAll s ds).keep.pix x y = true)
    ∧ (s.remove.pix x y = true → (mergeAll s ds).remove.pix x y = true)
    ∧ ((resetState s).keep.pix x y = false
       ∧ (resetState s).remove.pix x y = false
       ∧ (resetState s).keep.width = s.keep.width
       ∧ (resetState s).keep.height = s.keep.height
       ∧ (resetState s).remove.width = s.remove.width
       ∧ (resetState s).remove.height = s.remove.height) :=
  ⟨mergeAll_keep_mono ds s x y, mergeAll_remove_mono ds s x y,
   rfl, rfl, rfl, rfl, rfl, rfl⟩

/-- Claim C5 witness: A concrete state with keep and remove set at (0,0)
survives a further merge of an all-false delta pair, and reset clears a 1×1
state. -/
theorem C5_monotone_until_reset_witness :
    (mergeAll ⟨⟨1, 1, fun _ _ => true⟩, ⟨1, 1, fun _ _ => true⟩⟩
        [(zeros_hw 1 1, zeros_hw 1 1)]).keep.pix 0 0 = true
    ∧ (mergeAll ⟨⟨1, 1, fun _ _ => true⟩, ⟨1, 1, fun _ _ => true⟩⟩
        [(zeros_hw 1 1, zeros_hw 1 1)]).remove.pix 0 0 = true
    ∧ (resetState ⟨⟨1, 1, fun _ _ => true⟩, ⟨1, 1, fun _ _ => true⟩⟩).keep.pix 0 0
        = false :=
  ⟨(C5_monotone_until_reset ⟨⟨1, 1, fun _ _ => true⟩, ⟨1, 1, fun _ _ => true⟩⟩
      [(zeros_hw 1 1, zeros_hw 1 1)] 0 0).1 rfl,
   (C5_monotone_until_reset ⟨⟨1, 1, fun _ _ => true⟩, ⟨1, 1, fun _ _ => true⟩⟩
      [(zeros_hw 1 1, zeros_hw 1 1)] 0 0).2.1 rfl,
   (C5_monotone_until_reset ⟨⟨1, 1, fun _ _ => true⟩, ⟨1, 1, fun _ _ => true⟩⟩
      [(zeros_hw 1 1, zeros_hw 1 1)] 0 0).2.2.1⟩

/-- Claim C10 counterexample: The snapshot pixel (250,255,0) over a black
background reference is classified both keep *and* remove: the `uint8`
additions `r + 50` and `g + 50` wrap modulo 256 (300 → 44, 305 → 49), so both
margin conditions hold simultaneously. -/
theorem C10_counterexample :
    isGreenAt ⟨1, 1, fun _ _ => (250, 255, 0)⟩ ⟨1, 1, fun _ _ => (0, 0, 0)⟩ 0 0 = true
    ∧ isRedAt ⟨1, 1, fun _ _ => (250, 255, 0)⟩ ⟨1, 1, fun _ _ => (0, 0, 0)⟩ 0 0 = true := by
  decide

/-- Claim C10 amended: For any pixel whose red and green channels are at most
205 — so the `uint8` margin additions `r + 50` and `g + 50` do not overflow —
the keep and remove deltas are disjoint: the green-dominance and red-dominance
margin conditions cannot hold simultaneously. (With overflow, a pixel such as
(250,255,0) is classified as both.) -/
theorem C10_deltas_disjoint (snap bgRef : Grid RGB) (x y : Nat)
    (hr : (snap.pix x y).1 ≤ 205) (hg : (snap.pix x y).2.1 ≤ 205) :
    ¬(isGreenAt snap bgRef x y = true ∧ isRedAt snap bgRef x y = true) := by
  rintro ⟨hgreen, hred⟩
  simp only [isGreenAt, isRedAt, Bool.and_eq_true, decide_eq_true_eq] at hgreen hred
  have h1 : ((snap.pix x y).1 + 50) % 256 = (snap.pix x y).1 + 50 :=
    Nat.mod_eq_of_lt (by omega)
  have h2 : ((snap.pix x y).2.1 + 50) % 256 = (snap.pix x y).2.1 + 50 :=
    Nat.mod_eq_of_lt (by omega)
  rw [h1] at hgreen
  rw [h2] at hred
  omega

/-- Claim C10 witness: A concrete overflow-free pixel (0,200,0) over black:
it is not classified both keep and remove. -/
theorem C10_deltas_disjoint_witness :
    (0 : Nat) ≤ 205 ∧ (200 : Nat) ≤ 205 ∧
    ¬(isGreenAt ⟨1, 1, fun _ _ => (0, 200, 0)⟩ ⟨1, 1, fun _ _ => (0, 0, 0)⟩ 0 0 = true
      ∧ isRedAt ⟨1, 1, fun _ _ => (0, 200, 0)⟩ ⟨1, 1, fun _ _ => (0, 0, 0)⟩ 0 0 = true) :=
  ⟨by decide, by decide,
   C10_deltas_disjoint ⟨1, 1, fun _ _ => (0, 200, 0)⟩ ⟨1, 1, fun _ _ => (0, 0, 0)⟩
     0 0 (by decide) (by decide)⟩

/-- Claim C6: When no downscale is triggered, compositing with an all-true
final mask reproduces the original image pixel for pixel at unchanged
dimensions (the background colour never shows through); and with an all-false
final mask every output pixel is the background colour, for every bound and
every smoothing filter (the nearest-neighbour resampling of an all-false mask
stays all-false). -/
theorem C6_compose_extremes (orig : Grid RGB) (bg : RGB) (maxW : Nat)
    (smooth : Grid RGB → Nat → Nat → Grid RGB) (x y : Nat) :
    (¬(0 < maxW ∧ maxW < orig.width) →
      ((compose_on_background orig ⟨orig.width, orig.height, fun _ _ => true⟩
          bg maxW smooth).pix x y = orig.pix x y
       ∧ (compose_on_background orig ⟨orig.width, orig.height, fun _ _ => true⟩
          bg maxW smooth).width = orig.width
       ∧ (compose_on_background orig ⟨orig.width, orig.height, fun _ _ => true⟩
          bg maxW smooth).height = orig.height))
    ∧ (∀ mask : Grid Bool, (∀ i j, mask.pix i j = false) →
        (compose_on_background orig mask bg maxW smooth).pix x y = bg) := by
  constructor
  · intro hno
    unfold compose_on_background pasteOnBg
    rw [if_neg hno]
    exact ⟨rfl, rfl, rfl⟩
  · intro mask hmask
    unfold compose_on_background pasteOnBg
    by_cases hcond : 0 < maxW ∧ maxW < orig.width
    · rw [if_pos hcond]
      simp [resizeNearest, hmask]
    · rw [if_neg hcond]
      simp [hmask]

/-- Claim C6 witness: A concrete 2×1 image with bound 0 (no downscale): the
all-true mask returns the image's own pixel at (1,0), and an all-false mask
returns the background colour (9,9,9). -/
theorem C6_compose_extremes_witness :
    ¬((0 : Nat) < 0 ∧ (0 : Nat) < 2) ∧
    (compose_on_background ⟨2, 1, fun x _ => (x, 0, 0)⟩ ⟨2, 1, fun _ _ => true⟩
        (9, 9, 9) 0 (fun g _ _ => g)).pix 1 0 = (1, 0, 0)
    ∧ (compose_on_background ⟨2, 1, fun x _ => (x, 0, 0)⟩ (zeros_hw 1 2)
        (9, 9, 9) 0 (fun g _ _ => g)).pix 1 0 = (9, 9, 9) :=
  ⟨by decide,
   ((C6_compose_extremes ⟨2, 1, fun x _ => (x, 0, 0)⟩ (9, 9, 9) 0
      (fun g _ _ => g) 1 0).1 (by decide)).1,
   (C6_compose_extremes ⟨2, 1, fun x _ => (x, 0, 0)⟩ (9, 9, 9) 0
      (fun g _ _ => g) 1 0).2 (zeros_hw 1 2) (fun _ _ => rfl)⟩

/-- Claim C7: The image compositor downscales if and only if the output bound
is positive and the image is wider than it: in that case the image goes
through the external smoothing filter and the mask through nearest-neighbour
resampling, both to the bounded size from the resolution mapper, before the
paste; in every other case both inputs reach the paste unchanged. The mask
never passes through the smoothing filter — its only resampling path is
`resizeNearest`. -/
theorem C7_resample_paths (orig : Grid RGB) (mask : Grid Bool) (bg : RGB)
    (maxW : Nat) (smooth : Grid RGB → Nat → Nat → Grid RGB) :
    (0 < maxW ∧ maxW < orig.width →
      compose_on_background orig mask bg maxW smooth
        = pasteOnBg
            (smooth orig (boundedSize orig.width orig.height maxW).1
              (boundedSize orig.width orig.height maxW).2)
            (resizeNearest mask (boundedSize orig.width orig.height maxW).1
              (boundedSize orig.width orig.height maxW).2) bg)
    ∧ (¬(0 < maxW ∧ maxW < orig.width) →
      compose_on_background orig mask bg maxW smooth = pasteOnBg orig mask bg) := by
  constructor
  · intro hcond
    unfold compose_on_background
    rw [if_pos hcond]
  · intro hno
    unfold compose_on_background
    rw [if_neg hno]

/-- Claim C7 witness: With bound 1 on a 2×1 image the downscale branch is
taken (bounded size (1, 0) here, height truncated from 1·1/2); with bound 0
the inputs are pasted unchanged. -/
theorem C7_resample_paths_witness :
    ((0 : Nat) < 1 ∧ (1 : Nat) < 2) ∧
    compose_on_background ⟨2, 1, fun x _ => (x, 0, 0)⟩ ⟨2, 1, fun _ _ => true⟩
        (9, 9, 9) 1 (fun g _ _ => g)
      = pasteOnBg ⟨2, 1, fun x _ => (x, 0, 0)⟩
          (resizeNearest ⟨2, 1, fun _ _ => true⟩ 1 0) (9, 9, 9)
    ∧ compose_on_background ⟨2, 1, fun x _ => (x, 0, 0)⟩ ⟨2, 1, fun _ _ => true⟩
        (9, 9, 9) 0 (fun g _ _ => g)
      = pasteOnBg ⟨2, 1, fun x _ => (x, 0, 0)⟩ ⟨2, 1, fun _ _ => true⟩ (9, 9, 9) :=
  ⟨⟨by decide, by decide⟩,
   (C7_resample_paths ⟨2, 1, fun x _ => (x, 0, 0)⟩ ⟨2, 1, fun _ _ => true⟩
      (9, 9, 9) 1 (fun g _ _ => g)).1 ⟨by decide, by decide⟩,
   (C7_resample_paths ⟨2, 1, fun x _ => (x, 0, 0)⟩ ⟨2, 1, fun _ _ => true⟩
      (9, 9, 9) 0 (fun g _ _ => g)).2 (by decide)⟩

/-- Claim C8: A file whose bytes fail to decode yields the error report naming
that file, and the loop continues: every file before and after it in the
batch is processed exactly as it would be on its own — no single bad input
aborts the run. -/
theorem C8_bad_input_does_not_abort (xs ys : List UploadFile) (nm : String) :
    processBatch (xs ++ (nm, none) :: ys)
      = processBatch xs
        ++ BatchOutcome.error ("Archivo inválido o no soportado (" ++ nm ++ ")")
          :: processBatch ys := by
  unfold processBatch processFile
  simp

/-- The state key prefix `refine_` preserves distinctness of file names. -/
theorem stateKey_injective (a b : String) (h : stateKey a = stateKey b) : a = b := by
  unfold stateKey at h
  have hd : ("refine_" ++ a).data = ("refine_" ++ b).data := congrArg String.data h
  simp only [String.data_append] at hd
  exact String.ext (List.append_cancel_left hd)

/-- Claim C9: Per-image refinement state is keyed by the file's name: a merge or
a reset on one image's state never changes the state stored for an image
with a different name. -/
theorem C9_states_disjoint (sess : Session) (n1 n2 : String) (h : n1 ≠ n2)
    (ch cw : Nat) (kd rd : Grid Bool) :
    sessionMerge sess n1 ch cw kd rd (stateKey n2) = sess (stateKey n2)
    ∧ sessionReset sess n1 (stateKey n2) = sess (stateKey n2) := by
  have hk : stateKey n2 ≠ stateKey n1 := fun he => h (stateKey_injective n1 n2 he.symm)
  constructor
  · unfold sessionMerge sessionSet
    simp [hk]
  · unfold sessionReset
    cases hcase : sess (stateKey n1) with
    | none => rfl
    | some s =>
        unfold sessionSet
        simp [hk]

/-- Claim C9 witness: In a session holding only state for `a.png`, merging a
delta into `a.png` and clearing `a.png` both leave the entry looked up for
`b.png` untouched (still absent). -/
theorem C9_states_disjoint_witness :
    "a.png" ≠ "b.png" ∧
    sessionMerge (fun _ => none) "a.png" 1 1 (zeros_hw 1 1) (zeros_hw 1 1)
        (stateKey "b.png") = none
    ∧ sessionReset (fun _ => none) "a.png" (stateKey "b.png") = none :=
  ⟨by decide,
   (C9_states_disjoint (fun _ => none) "a.png" "b.png" (by decide) 1 1
      (zeros_hw 1 1) (zeros_hw 1 1)).1,
   (C9_states_disjoint (fun _ => none) "a.png" "b.png" (by decide) 1 1
      (zeros_hw 1 1) (zeros_hw 1 1)).2⟩

end RemoveBg
